import Mathlib

/-!
Verification of the planet-visualization program: a shallow embedding of its
scene setup, orbit-update system, picking system and CLI argument parsing,
with theorems checking the specification's claims about them.
Floating-point scalars of the program are modelled as real numbers.
-/

namespace BevyPlanets

/-- A 3-component vector, modelling the engine's Vec3 (f32 components). -/
structure Vec3 where
  x : ℝ
  y : ℝ
  z : ℝ

/-- The Planetoid component: speed (f64), orbit_radius (f32), time (f64). -/
structure Planetoid where
  speed : ℝ
  orbit_radius : ℝ
  time : ℝ

/-- An RGBA base color of a StandardMaterial. -/
structure Color where
  r : ℝ
  g : ℝ
  b : ℝ
  a : ℝ

/-- Euclidean distance between two points, modelling Vec3::distance. -/
noncomputable def distance (u v : Vec3) : ℝ :=
  Real.sqrt ((u.x - v.x) ^ 2 + (u.y - v.y) ^ 2 + (u.z - v.z) ^ 2)

/-- The orbit angle computed by planetoid_movement_system:
speed * (time - seconds_since_startup). -/
def orbit_angle (speed phase t : ℝ) : ℝ :=
  speed * (phase - t)

/-- The translation written by planetoid_movement_system:
Vec3::new(angle.cos(), 0.0, angle.sin()) * orbit_radius. -/
noncomputable def orbit_position (speed phase t radius : ℝ) : Vec3 :=
  ⟨Real.cos (orbit_angle speed phase t) * radius,
   0 * radius,
   Real.sin (orbit_angle speed phase t) * radius⟩

/-- planetoid_movement_system: for each (Planetoid, Transform) pair, overwrite
the transform's translation with the orbit position at elapsed time t. -/
noncomputable def planetoid_movement_system (t : ℝ)
    (bodies : List (Planetoid × Vec3)) : List (Planetoid × Vec3) :=
  bodies.map fun body =>
    (body.1, orbit_position body.1.speed body.1.time t body.1.orbit_radius)

/-- An entity in the picking query: its Planetoid component, its
GlobalTransform translation, and the base color of its material. -/
structure PickBody where
  planetoid : Planetoid
  pos : Vec3
  color : Color

/-- The color reset performed on every scanned body:
set_r(0.0); set_g(1.0); set_b(0.0). -/
def reset_to_green (body : PickBody) : PickBody :=
  { body with color := { body.color with r := 0, g := 1, b := 0 } }

/-- The recoloring of the selected body: set_r(1.0); set_g(1.0); set_b(1.0). -/
def whiten (body : PickBody) : PickBody :=
  { body with color := { body.color with r := 1, g := 1, b := 1 } }

/-- Apply f to the element at a given index (identity out of range); models
mutating the material owned by a particular handle. -/
def modify_at (f : PickBody → PickBody) : List PickBody → ℕ → List PickBody
  | [], _ => []
  | x :: xs, 0 => f x :: xs
  | x :: xs, n + 1 => x :: modify_at f xs n

open Classical in
/-- The scan loop of pick_planetoid: reset every body's color to green while
tracking the running shortest distance (initially 100.0) and the index of the
last body that strictly improved it. -/
noncomputable def pick_scan (np : Vec3) :
    ℝ → Option ℕ → ℕ → List PickBody → ℝ × Option ℕ × List PickBody
  | shortest, closest, _, [] => (shortest, closest, [])
  | shortest, closest, idx, body :: rest =>
    let current_distance := distance body.pos np
    if current_distance < shortest then
      let res := pick_scan np current_distance (some idx) (idx + 1) rest
      (res.1, res.2.1, reset_to_green body :: res.2.2)
    else
      let res := pick_scan np shortest closest (idx + 1) rest
      (res.1, res.2.1, reset_to_green body :: res.2.2)

/-- pick_planetoid: given the top raycast intersection (if any) and whether the
left mouse button was just pressed, project the intersection onto the ground
plane (zero the y component), reset all colors to green while scanning for the
closest body, then recolor the closest body (if one was found) to white. -/
noncomputable def pick_planetoid (top_intersection : Option Vec3)
    (left_just_pressed : Bool) (bodies : List PickBody) : List PickBody :=
  match top_intersection with
  | none => bodies
  | some p =>
    let new_position : Vec3 := ⟨p.x, 0, p.z⟩
    if left_just_pressed then
      let scan := pick_scan new_position 100 none 0 bodies
      match scan.2.1 with
      | some k => modify_at whiten scan.2.2 k
      | none => scan.2.2
    else bodies

/-- The state of thread_rng, modelled as a stream of raw draws together with a
cursor; each gen_range call consumes one draw. -/
structure RngState where
  stream : ℕ → ℕ
  next : ℕ

/-- rng.gen_range(lo..hi) on integers: a value in [lo, hi), consuming one draw. -/
def gen_range_nat (lo hi : ℕ) (r : RngState) : ℕ × RngState :=
  (lo + r.stream r.next % (hi - lo), ⟨r.stream, r.next + 1⟩)

/-- rng.gen_range(lo..hi) on floats: a value in [lo, hi), consuming one draw. -/
noncomputable def gen_range_real (lo hi : ℝ) (r : RngState) : ℝ × RngState :=
  (lo + (hi - lo) * ((r.stream r.next % 1000 : ℕ) : ℝ) / 1000, ⟨r.stream, r.next + 1⟩)

/-- Spawning the moon at index j: draw its sphere radius (0.003..0.006), then
build its Planetoid with speed drawn from 1.0..2.0, orbit_radius
0.05 + j/35.0, and time drawn from 0.0..10.0. -/
noncomputable def mk_moon (j : ℕ) (r : RngState) : Planetoid × RngState :=
  let mesh := gen_range_real 0.003 0.006 r
  let s := gen_range_real 1 2 mesh.2
  let t := gen_range_real 0 10 s.2
  ({ speed := s.1, orbit_radius := 0.05 + (j : ℝ) / 35, time := t.1 }, t.2)

/-- The moon loop: spawn count moons starting at index j. -/
noncomputable def mk_moons (j : ℕ) (count : ℕ) (r : RngState) :
    List Planetoid × RngState :=
  match count with
  | 0 => ([], r)
  | c + 1 =>
    let m := mk_moon j r
    let ms := mk_moons (j + 1) c m.2
    (m.1 :: ms.1, ms.2)

/-- Spawning the planet at index i: draw its sphere radius (0.005..0.01), draw
the number of moons from 1..4, spawn the moons as children, then build the
planet's Planetoid with speed drawn from 0.1..0.5, orbit_radius 0.15 + i/6.0,
and time drawn from 0.0..10.0. -/
noncomputable def mk_planet (i : ℕ) (r : RngState) :
    (Planetoid × List Planetoid) × RngState :=
  let mesh := gen_range_real 0.005 0.01 r
  let moons := gen_range_nat 1 4 mesh.2
  let ms := mk_moons 0 moons.1 moons.2
  let s := gen_range_real 0.1 0.5 ms.2
  let t := gen_range_real 0 10 s.2
  (({ speed := s.1, orbit_radius := 0.15 + (i : ℝ) / 6, time := t.1 }, ms.1), t.2)

/-- The planet loop of setup: spawn count planets starting at index i. -/
noncomputable def mk_planets (i : ℕ) (count : ℕ) (r : RngState) :
    List (Planetoid × List Planetoid) × RngState :=
  match count with
  | 0 => ([], r)
  | c + 1 =>
    let p := mk_planet i r
    let ps := mk_planets (i + 1) c p.2
    (p.1 :: ps.1, ps.2)

/-- A top-level entity spawned by setup: the ground plane, a planet (with its
Planetoid and its child moons' Planetoids), the sun point light, or the camera. -/
inductive Entity where
  | ground_plane : Entity
  | planet : Planetoid → List Planetoid → Entity
  | sun : Entity
  | camera : Entity

/-- setup: spawn the ground plane, then one planet per index in
0..settings.planets (an i32 range, empty when planets <= 0), then the sun,
then the camera. -/
noncomputable def setup (planets : ℤ) (r : RngState) : List Entity :=
  let ps := mk_planets 0 planets.toNat r
  Entity.ground_plane :: ps.1.map (fun q => Entity.planet q.1 q.2)
    ++ [Entity.sun, Entity.camera]

/-- Whether an entity is a planet body. -/
def is_planet : Entity → Bool
  | .planet _ _ => true
  | _ => false

/-- Whether an entity is the sun. -/
def is_sun : Entity → Bool
  | .sun => true
  | _ => false

/-- Whether an entity is the camera. -/
def is_camera : Entity → Bool
  | .camera => true
  | _ => false

/-- The planet bodies of a spawned scene, in spawn order. -/
def planets_of (es : List Entity) : List (Planetoid × List Planetoid) :=
  es.filterMap fun e =>
    match e with
    | .planet p ms => some (p, ms)
    | _ => none

/-- The numeric value of an ASCII digit character, if it is one. -/
def digit_val (c : Char) : Option ℕ :=
  if '0' ≤ c ∧ c ≤ '9' then some (c.toNat - 48) else none

/-- Accumulating scan over decimal digit characters; fails on a non-digit. -/
def parse_digits_go (acc : ℕ) : List Char → Option ℕ
  | [] => some acc
  | c :: cs =>
    match digit_val c with
    | some d => parse_digits_go (10 * acc + d) cs
    | none => none

/-- Parse a nonempty run of decimal digits. -/
def parse_digits : List Char → Option ℕ
  | [] => none
  | l => parse_digits_go 0 l

/-- str::parse::<i32>: an optional sign followed by at least one ASCII decimal
digit, with the resulting value required to fit in the i32 range. -/
def parse_i32 (l : List Char) : Option ℤ :=
  match l with
  | [] => none
  | c :: rest =>
    if c = '-' then
      (parse_digits rest).bind fun m =>
        if (m : ℤ) ≤ 2 ^ 31 then some (-(m : ℤ)) else none
    else if c = '+' then
      (parse_digits rest).bind fun m =>
        if (m : ℤ) ≤ 2 ^ 31 - 1 then some (m : ℤ) else none
    else
      (parse_digits (c :: rest)).bind fun m =>
        if (m : ℤ) ≤ 2 ^ 31 - 1 then some (m : ℤ) else none

/-- str::trim: remove whitespace from both ends. -/
def trim_chars (l : List Char) : List Char :=
  ((l.dropWhile Char.isWhitespace).reverse.dropWhile Char.isWhitespace).reverse

/-- args[1].trim().parse::<i32>(): the processing applied to the planet-count
argument. -/
def parse_arg (a : List Char) : Option ℤ :=
  parse_i32 (trim_chars a)

/-- The argument handling of main: index into args (panicking when args[1] is
absent), then trim and parse it, panicking via expect on parse failure. -/
def parse_planets (args : List (List Char)) : Except String ℤ :=
  match args.get? 1 with
  | none => Except.error "index out of bounds"
  | some a =>
    match parse_arg a with
    | none => Except.error "please give me correct string number!"
    | some n => Except.ok n

/-- The decimal digit character for a value below ten. -/
def digit_char (d : ℕ) : Char :=
  Char.ofNat (48 + d)

/-- The canonical decimal representation of a natural number. -/
def nat_decimal (m : ℕ) : List Char :=
  if m = 0 then ['0'] else ((Nat.digits 10 m).reverse.map digit_char)

/-- The canonical decimal representation of an integer (a leading minus sign
for negative values), modelling the text of a numeric CLI argument. -/
def int_decimal (n : ℤ) : List Char :=
  if n < 0 then '-' :: nat_decimal n.natAbs else nat_decimal n.toNat

/-- A concrete rng state used to instantiate theorems. -/
def r0 : RngState :=
  ⟨fun _ => 0, 0⟩

/-- Claim C7: at elapsed time equal to the body's phase, the computed angle is
0 and the position relative to the parent is exactly (orbit_radius, 0, 0). -/
theorem c7_position_at_phase (s p radius : ℝ) :
    orbit_angle s p p = 0 ∧ orbit_position s p p radius = ⟨radius, 0, 0⟩ := by
  constructor
  · simp [orbit_angle]
  · simp [orbit_position, orbit_angle]

/-- Claim C6: for a body with angular speed s > 0, advancing the elapsed time
by 2π/s subtracts exactly 2π from the computed angle (the same angle modulo
2π) and yields the same computed position. -/
theorem c6_orbit_periodicity (s p t radius : ℝ) (h : 0 < s) :
    orbit_angle s p (t + 2 * Real.pi / s) = orbit_angle s p t - 2 * Real.pi ∧
    orbit_position s p (t + 2 * Real.pi / s) radius = orbit_position s p t radius := by
  have hs : s ≠ 0 := ne_of_gt h
  have hangle : orbit_angle s p (t + 2 * Real.pi / s) = orbit_angle s p t - 2 * Real.pi := by
    unfold orbit_angle
    field_simp
    ring
  refine ⟨hangle, ?_⟩
  unfold orbit_position
  rw [hangle, Real.cos_sub_two_pi, Real.sin_sub_two_pi]

/-- Witness for C6 at s = 1, p = 0, t = 0, radius = 1. -/
theorem c6_witness :
    (0 : ℝ) < 1 ∧
    (orbit_angle 1 0 (0 + 2 * Real.pi / 1) = orbit_angle 1 0 0 - 2 * Real.pi ∧
     orbit_position 1 0 (0 + 2 * Real.pi / 1) 1 = orbit_position 1 0 0 1) :=
  ⟨by norm_num, c6_orbit_periodicity 1 0 0 1 (by norm_num)⟩

/-- Claim C8: on a frame with no ray intersection, the picker changes nothing,
whatever the mouse button state. -/
theorem c8_no_intersection_no_change (pressed : Bool) (bodies : List PickBody) :
    pick_planetoid none pressed bodies = bodies := rfl

/-- Claim C3: the orbit update writes position
orbit_radius * (cos (s*(p-t)), 0, sin (s*(p-t))) relative to the parent, and
it is a pure function of the elapsed time and the orbital parameters: the
transforms carried in from the previous tick do not influence the result. -/
theorem c3_movement_pure_formula :
    (∀ (t : ℝ) (bodies : List (Planetoid × Vec3)) (i : ℕ) (pl : Planetoid) (tr : Vec3),
        bodies.get? i = some (pl, tr) →
        (planetoid_movement_system t bodies).get? i =
          some (pl, ⟨pl.orbit_radius * Real.cos (pl.speed * (pl.time - t)), 0,
                     pl.orbit_radius * Real.sin (pl.speed * (pl.time - t))⟩)) ∧
    (∀ (t : ℝ) (bodies bodies' : List (Planetoid × Vec3)),
        bodies.map Prod.fst = bodies'.map Prod.fst →
        planetoid_movement_system t bodies = planetoid_movement_system t bodies') := by
  constructor
  · intro t bodies i pl tr hget
    unfold planetoid_movement_system
    rw [List.get?_map, hget]
    simp [orbit_position, orbit_angle, mul_comm]
  · intro t bodies
    induction bodies with
    | nil =>
      intro bodies' hmap
      cases bodies' with
      | nil => rfl
      | cons b' bs' => simp at hmap
    | cons b bs ih =>
      intro bodies' hmap
      cases bodies' with
      | nil => simp at hmap
      | cons b' bs' =>
        simp only [List.map_cons, List.cons.injEq] at hmap
        have h2 := ih bs' hmap.2
        simp only [planetoid_movement_system, List.map_cons, List.cons.injEq] at h2 ⊢
        refine ⟨?_, h2⟩
        rw [hmap.1]

/-- Witness for C3 on a one-body scene. -/
theorem c3_witness :
    (planetoid_movement_system 0 [(⟨1, 2, 3⟩, ⟨9, 9, 9⟩)]).get? 0 =
      some (⟨1, 2, 3⟩,
        ⟨(2 : ℝ) * Real.cos (1 * (3 - 0)), 0, (2 : ℝ) * Real.sin (1 * (3 - 0))⟩) ∧
    planetoid_movement_system 0 [(⟨1, 2, 3⟩, ⟨9, 9, 9⟩)] =
      planetoid_movement_system 0 [(⟨1, 2, 3⟩, ⟨0, 0, 0⟩)] :=
  ⟨c3_movement_pure_formula.1 0 [(⟨1, 2, 3⟩, ⟨9, 9, 9⟩)] 0 ⟨1, 2, 3⟩ ⟨9, 9, 9⟩ rfl,
   c3_movement_pure_formula.2 0 [(⟨1, 2, 3⟩, ⟨9, 9, 9⟩)] [(⟨1, 2, 3⟩, ⟨0, 0, 0⟩)] rfl⟩

/-- The scan loop returns every scanned body with its color reset to green. -/
lemma pick_scan_out (np : Vec3) :
    ∀ (l : List PickBody) (s : ℝ) (c : Option ℕ) (idx : ℕ),
      (pick_scan np s c idx l).2.2 = l.map reset_to_green := by
  intro l
  induction l with
  | nil =>
    intro s c idx
    rfl
  | cons body rest ih =>
    intro s c idx
    by_cases h : distance body.pos np < s
    · simp only [pick_scan, if_pos h, List.map_cons, List.cons.injEq]
      exact ⟨trivial, ih _ _ _⟩
    · simp only [pick_scan, if_neg h, List.map_cons, List.cons.injEq]
      exact ⟨trivial, ih _ _ _⟩

/-- reset_to_green only touches the color. -/
lemma map_params_reset (l : List PickBody) :
    (l.map reset_to_green).map (fun body => (body.planetoid, body.pos)) =
      l.map fun body => (body.planetoid, body.pos) := by
  induction l with
  | nil => rfl
  | cons body rest ih => simp only [List.map_cons, ih, reset_to_green]

/-- whiten only touches the color, so modify_at whiten preserves the
planetoid parameters and positions at every index. -/
lemma map_params_modify_whiten :
    ∀ (l : List PickBody) (k : ℕ),
      (modify_at whiten l k).map (fun body => (body.planetoid, body.pos)) =
        l.map fun body => (body.planetoid, body.pos) := by
  intro l
  induction l with
  | nil =>
    intro k
    rfl
  | cons body rest ih =>
    intro k
    cases k with
    | zero => simp only [modify_at, List.map_cons, whiten]
    | succ k => simp only [modify_at, List.map_cons, ih k]

/-- Claim C9: the orbital parameters are never mutated after creation: the
orbit-update system rewrites only transforms (the Planetoid components of its
output are those of its input), and the picker rewrites only material colors
(the Planetoid components and positions of its output are those of its
input). -/
theorem c9_orbital_params_immutable :
    (∀ (t : ℝ) (bodies : List (Planetoid × Vec3)),
        (planetoid_movement_system t bodies).map Prod.fst = bodies.map Prod.fst) ∧
    (∀ (inter : Option Vec3) (pressed : Bool) (bodies : List PickBody),
        (pick_planetoid inter pressed bodies).map (fun body => (body.planetoid, body.pos)) =
          bodies.map fun body => (body.planetoid, body.pos)) := by
  constructor
  · intro t bodies
    induction bodies with
    | nil => rfl
    | cons b bs ih =>
      simp only [planetoid_movement_system, List.map_cons] at ih ⊢
      rw [ih]
  · intro inter pressed bodies
    cases inter with
    | none => rfl
    | some p =>
      cases pressed with
      | false => rfl
      | true =>
        simp only [pick_planetoid]
        cases hc : (pick_scan ⟨p.x, 0, p.z⟩ 100 none 0 bodies).2.1 with
        | none => simp [pick_scan_out, map_params_reset, reset_to_green]
        | some k =>
          simp [pick_scan_out, map_params_reset, map_params_modify_whiten, reset_to_green]

/-- The running shortest distance never increases during the scan. -/
lemma pick_scan_le (np : Vec3) :
    ∀ (l : List PickBody) (s : ℝ) (c : Option ℕ) (idx : ℕ),
      (pick_scan np s c idx l).1 ≤ s := by
  intro l
  induction l with
  | nil =>
    intro s c idx
    exact le_refl s
  | cons body rest ih =>
    intro s c idx
    by_cases h : distance body.pos np < s
    · simp only [pick_scan, if_pos h]
      exact le_of_lt (lt_of_le_of_lt (ih _ _ _) h)
    · simp only [pick_scan, if_neg h]
      exact ih _ _ _

/-- The final shortest distance is a lower bound on every scanned body's
distance. -/
lemma pick_scan_min (np : Vec3) :
    ∀ (l : List PickBody) (s : ℝ) (c : Option ℕ) (idx : ℕ) (j : ℕ) (hj : j < l.length),
      (pick_scan np s c idx l).1 ≤ distance (l.get ⟨j, hj⟩).pos np := by
  intro l
  induction l with
  | nil =>
    intro s c idx j hj
    exact absurd hj (Nat.not_lt_zero j)
  | cons body rest ih =>
    intro s c idx j hj
    by_cases h : distance body.pos np < s
    · simp only [pick_scan, if_pos h]
      cases j with
      | zero => exact pick_scan_le np rest _ _ _
      | succ j => exact ih _ _ _ j (Nat.lt_of_succ_lt_succ hj)
    · simp only [pick_scan, if_neg h]
      cases j with
      | zero => exact le_trans (pick_scan_le np rest _ _ _) (not_lt.mp h)
      | succ j => exact ih _ _ _ j (Nat.lt_of_succ_lt_succ hj)

/-- Characterization of the scan result: either no body beat the initial
shortest distance and the tracked index is unchanged, or the tracked index
points at a scanned body realizing the final (strictly improved) shortest
distance. -/
lemma pick_scan_closest (np : Vec3) :
    ∀ (l : List PickBody) (s : ℝ) (c : Option ℕ) (idx : ℕ),
      ((pick_scan np s c idx l).1 = s ∧ (pick_scan np s c idx l).2.1 = c ∧
        ∀ (j : ℕ) (hj : j < l.length), s ≤ distance (l.get ⟨j, hj⟩).pos np) ∨
      (∃ k, ∃ (hk : k < l.length), (pick_scan np s c idx l).2.1 = some (idx + k) ∧
        distance (l.get ⟨k, hk⟩).pos np = (pick_scan np s c idx l).1 ∧
        (pick_scan np s c idx l).1 < s) := by
  intro l
  induction l with
  | nil =>
    intro s c idx
    left
    exact ⟨rfl, rfl, fun j hj => absurd hj (Nat.not_lt_zero j)⟩
  | cons body rest ih =>
    intro s c idx
    by_cases h : distance body.pos np < s
    · simp only [pick_scan, if_pos h]
      right
      rcases ih (distance body.pos np) (some idx) (idx + 1) with ⟨h1, h2, _⟩ | ⟨k, hk, h1, h2, h3⟩
      · refine ⟨0, Nat.succ_pos _, ?_, ?_, ?_⟩
        · rw [h2, Nat.add_zero]
        · exact h1.symm
        · rw [h1]
          exact h
      · refine ⟨k + 1, Nat.succ_lt_succ hk, ?_, h2, lt_trans h3 h⟩
        rw [h1]
        congr 1
        omega
    · simp only [pick_scan, if_neg h]
      rcases ih s c (idx + 1) with ⟨h1, h2, h3⟩ | ⟨k, hk, h1, h2, h3⟩
      · left
        refine ⟨h1, h2, ?_⟩
        intro j hj
        cases j with
        | zero => exact not_lt.mp h
        | succ j => exact h3 j (Nat.lt_of_succ_lt_succ hj)
      · right
        refine ⟨k + 1, Nat.succ_lt_succ hk, ?_, h2, h3⟩
        rw [h1]
        congr 1
        omega

/-- Indexing into modify_at: the modified index is mapped through f, every
other index is untouched. -/
lemma modify_at_get? (f : PickBody → PickBody) :
    ∀ (l : List PickBody) (k j : ℕ),
      (modify_at f l k).get? j = if j = k then (l.get? j).map f else l.get? j := by
  intro l
  induction l with
  | nil =>
    intro k j
    simp [modify_at]
  | cons x xs ih =>
    intro k j
    cases k with
    | zero =>
      cases j with
      | zero => simp [modify_at]
      | succ j => simp [modify_at]
    | succ k =>
      cases j with
      | zero => simp [modify_at]
      | succ k' => simpa [modify_at, Nat.succ_inj, List.get?_eq_getElem?] using ih k k'

/-- Claim C1 (amended): when the left mouse button is just pressed and at
least one body lies strictly within 100 scene units of the projected pick
point, the picker resets every body's color to green and recolors to white
exactly one body, one attaining the minimum Euclidean distance to that point;
every other body keeps the reset green color. -/
theorem c1_pick_selects_closest (p : Vec3) (bodies : List PickBody)
    (h : ∃ j, ∃ (hj : j < bodies.length),
        distance (bodies.get ⟨j, hj⟩).pos ⟨p.x, 0, p.z⟩ < 100) :
    ∃ k, ∃ (hk : k < bodies.length),
      pick_planetoid (some p) true bodies =
        modify_at whiten (bodies.map reset_to_green) k ∧
      (∀ (j : ℕ) (hj : j < bodies.length),
          (pick_planetoid (some p) true bodies).get? j =
            some (if j = k
              then whiten (reset_to_green (bodies.get ⟨j, hj⟩))
              else reset_to_green (bodies.get ⟨j, hj⟩))) ∧
      ∀ (j : ℕ) (hj : j < bodies.length),
        distance (bodies.get ⟨k, hk⟩).pos ⟨p.x, 0, p.z⟩ ≤
          distance (bodies.get ⟨j, hj⟩).pos ⟨p.x, 0, p.z⟩ := by
  rcases pick_scan_closest ⟨p.x, 0, p.z⟩ bodies 100 none 0 with ⟨_, _, h3⟩ | ⟨k, hk, h1, h2, _⟩
  · obtain ⟨j, hj, hlt⟩ := h
    exact absurd hlt (not_lt.mpr (h3 j hj))
  · rw [Nat.zero_add] at h1
    have hstruct : pick_planetoid (some p) true bodies =
        modify_at whiten (bodies.map reset_to_green) k := by
      simp only [pick_planetoid, h1, if_true]
      rw [pick_scan_out]
    refine ⟨k, hk, hstruct, ?_, ?_⟩
    · intro j hj
      rw [hstruct, modify_at_get?, List.get?_map, List.get?_eq_get hj]
      by_cases hjk : j = k
      · rw [if_pos hjk, if_pos hjk]
        rfl
      · rw [if_neg hjk, if_neg hjk]
        rfl
    · intro j hj
      rw [h2]
      exact pick_scan_min ⟨p.x, 0, p.z⟩ bodies 100 none 0 j hj

/-- Witness for the amended C1: a single body one unit away from the
projected pick point is recolored white. -/
theorem c1_witness :
    (∃ j, ∃ (hj : j < ([⟨⟨1, 1, 1⟩, ⟨1, 0, 0⟩, ⟨0.2, 0.8, 0.2, 1⟩⟩] : List PickBody).length),
        distance (([⟨⟨1, 1, 1⟩, ⟨1, 0, 0⟩, ⟨0.2, 0.8, 0.2, 1⟩⟩] : List PickBody).get
          ⟨j, hj⟩).pos ⟨(⟨0, 2, 0⟩ : Vec3).x, 0, (⟨0, 2, 0⟩ : Vec3).z⟩ < 100) ∧
    (∃ k, ∃ (hk : k < ([⟨⟨1, 1, 1⟩, ⟨1, 0, 0⟩, ⟨0.2, 0.8, 0.2, 1⟩⟩] : List PickBody).length),
      pick_planetoid (some ⟨0, 2, 0⟩) true [⟨⟨1, 1, 1⟩, ⟨1, 0, 0⟩, ⟨0.2, 0.8, 0.2, 1⟩⟩] =
        modify_at whiten
          (([⟨⟨1, 1, 1⟩, ⟨1, 0, 0⟩, ⟨0.2, 0.8, 0.2, 1⟩⟩] : List PickBody).map reset_to_green) k ∧
      (∀ (j : ℕ) (hj : j < ([⟨⟨1, 1, 1⟩, ⟨1, 0, 0⟩, ⟨0.2, 0.8, 0.2, 1⟩⟩] : List PickBody).length),
          (pick_planetoid (some ⟨0, 2, 0⟩) true
              [⟨⟨1, 1, 1⟩, ⟨1, 0, 0⟩, ⟨0.2, 0.8, 0.2, 1⟩⟩]).get? j =
            some (if j = k
              then whiten (reset_to_green
                (([⟨⟨1, 1, 1⟩, ⟨1, 0, 0⟩, ⟨0.2, 0.8, 0.2, 1⟩⟩] : List PickBody).get ⟨j, hj⟩))
              else reset_to_green
                (([⟨⟨1, 1, 1⟩, ⟨1, 0, 0⟩, ⟨0.2, 0.8, 0.2, 1⟩⟩] : List PickBody).get ⟨j, hj⟩))) ∧
      ∀ (j : ℕ) (hj : j < ([⟨⟨1, 1, 1⟩, ⟨1, 0, 0⟩, ⟨0.2, 0.8, 0.2, 1⟩⟩] : List PickBody).length),
        distance (([⟨⟨1, 1, 1⟩, ⟨1, 0, 0⟩, ⟨0.2, 0.8, 0.2, 1⟩⟩] : List PickBody).get
            ⟨k, hk⟩).pos ⟨(⟨0, 2, 0⟩ : Vec3).x, 0, (⟨0, 2, 0⟩ : Vec3).z⟩ ≤
          distance (([⟨⟨1, 1, 1⟩, ⟨1, 0, 0⟩, ⟨0.2, 0.8, 0.2, 1⟩⟩] : List PickBody).get
            ⟨j, hj⟩).pos ⟨(⟨0, 2, 0⟩ : Vec3).x, 0, (⟨0, 2, 0⟩ : Vec3).z⟩) :=
  ⟨⟨0, Nat.one_pos, by norm_num [distance, Real.sqrt_one]⟩,
   c1_pick_selects_closest ⟨0, 2, 0⟩ [⟨⟨1, 1, 1⟩, ⟨1, 0, 0⟩, ⟨0.2, 0.8, 0.2, 1⟩⟩]
     ⟨0, Nat.one_pos, by norm_num [distance, Real.sqrt_one]⟩⟩

/-- Counterexample to C1 as stated: with a single body 200 units from the
projected pick point (farther than the 100.0 initial shortest distance of
the scan), the closest body is not recolored white: it is left green. -/
theorem c1_counterexample :
    pick_planetoid (some ⟨0, 2, 0⟩) true [⟨⟨1, 1, 1⟩, ⟨200, 0, 0⟩, ⟨0.2, 0.8, 0.2, 1⟩⟩] =
      [⟨⟨1, 1, 1⟩, ⟨200, 0, 0⟩, ⟨0, 1, 0, 1⟩⟩] ∧
    (⟨0, 1, 0, 1⟩ : Color) ≠ ⟨1, 1, 1, 1⟩ := by
  constructor
  · have hd : distance ⟨200, 0, 0⟩ ⟨0, 0, 0⟩ = 200 := by
      rw [distance]
      norm_num
      rw [show (40000 : ℝ) = 200 ^ 2 by norm_num, Real.sqrt_sq (by norm_num : (0 : ℝ) ≤ 200)]
    simp only [pick_planetoid, pick_scan, if_true]
    rw [show (⟨(⟨0, 2, 0⟩ : Vec3).x, 0, (⟨0, 2, 0⟩ : Vec3).z⟩ : Vec3) = ⟨0, 0, 0⟩ from rfl, hd,
      if_neg (by norm_num : ¬(200 : ℝ) < 100)]
    rfl
  · intro hcontra
    have := congrArg Color.r hcontra
    norm_num at this

/-- The moon loop spawns exactly count moons. -/
lemma mk_moons_length : ∀ (count j : ℕ) (r : RngState), (mk_moons j count r).1.length = count := by
  intro count
  induction count with
  | zero =>
    intro j r
    rfl
  | succ c ih =>
    intro j r
    simp [mk_moons, ih]

/-- The planet loop spawns exactly count planets. -/
lemma mk_planets_length : ∀ (count i : ℕ) (r : RngState), (mk_planets i count r).1.length = count := by
  intro count
  induction count with
  | zero =>
    intro i r
    rfl
  | succ c ih =>
    intro i r
    simp [mk_planets, ih]

/-- Every planet gets between 1 and 3 moons (the gen_range(1..4) draw). -/
lemma mk_planet_moons_range (i : ℕ) (r : RngState) :
    1 ≤ (mk_planet i r).1.2.length ∧ (mk_planet i r).1.2.length ≤ 3 := by
  have h : (mk_planet i r).1.2.length =
      1 + (gen_range_real 0.005 0.01 r).2.stream (gen_range_real 0.005 0.01 r).2.next % 3 := by
    simp [mk_planet, gen_range_nat, mk_moons_length]
  omega

/-- Every planet in the planet loop's output has between 1 and 3 moons. -/
lemma mk_planets_moons_range :
    ∀ (count i : ℕ) (r : RngState), ∀ q ∈ (mk_planets i count r).1,
      1 ≤ q.2.length ∧ q.2.length ≤ 3 := by
  intro count
  induction count with
  | zero =>
    intro i r q hq
    simp [mk_planets] at hq
  | succ c ih =>
    intro i r q hq
    simp only [mk_planets, List.mem_cons] at hq
    rcases hq with rfl | hq
    · exact mk_planet_moons_range i r
    · exact ih _ _ q hq

/-- The planet bodies of the spawned scene are exactly the planet loop's
output. -/
lemma planets_of_setup (n : ℤ) (r : RngState) :
    planets_of (setup n r) = (mk_planets 0 n.toNat r).1 := by
  simp only [setup]
  generalize (mk_planets 0 n.toNat r).1 = ps
  induction ps with
  | nil => rfl
  | cons q qs ih =>
    simp only [planets_of, List.map_cons, List.cons_append, List.filterMap_cons] at ih ⊢
    rw [ih]

/-- Claim C4: for every nonnegative planet count n, setup spawns exactly n
planet bodies, each with between 1 and 3 child moons, and exactly one sun and
one camera. -/
theorem c4_setup_counts (n : ℤ) (h : 0 ≤ n) (r : RngState) :
    ((setup n r).countP is_planet : ℤ) = n ∧
    (∀ q ∈ planets_of (setup n r), 1 ≤ q.2.length ∧ q.2.length ≤ 3) ∧
    (setup n r).countP is_sun = 1 ∧
    (setup n r).countP is_camera = 1 := by
  refine ⟨?_, ?_, ?_, ?_⟩
  · have hcomp : (is_planet ∘ fun q : Planetoid × List Planetoid => Entity.planet q.1 q.2) =
        fun _ => true := funext fun q => rfl
    have hcount : (setup n r).countP is_planet = n.toNat := by
      simp [setup, List.countP_cons, List.countP_append, List.countP_map, hcomp,
        is_planet, List.countP_true, mk_planets_length]
    rw [hcount, Int.toNat_of_nonneg h]
  · rw [planets_of_setup]
    exact mk_planets_moons_range n.toNat 0 r
  · simp [setup, List.countP_cons, List.countP_append, List.countP_map, Function.comp, is_sun]
  · simp [setup, List.countP_cons, List.countP_append, List.countP_map, Function.comp, is_camera]

/-- Witness for C4 at n = 2. -/
theorem c4_witness :
    ((setup 2 r0).countP is_planet : ℤ) = 2 ∧
    (∀ q ∈ planets_of (setup 2 r0), 1 ≤ q.2.length ∧ q.2.length ≤ 3) ∧
    (setup 2 r0).countP is_sun = 1 ∧
    (setup 2 r0).countP is_camera = 1 :=
  c4_setup_counts 2 (by norm_num) r0

/-- The moon spawned at index j0 + j of the moon loop has orbit radius
0.05 + (j0 + j)/35. -/
lemma mk_moons_radius (count : ℕ) :
    ∀ (j0 : ℕ) (r : RngState) (j : ℕ), j < count →
      ∃ moon, (mk_moons j0 count r).1.get? j = some moon ∧
        moon.orbit_radius = 0.05 + ((j0 + j : ℕ) : ℝ) / 35 := by
  induction count with
  | zero =>
    intro j0 r j hj
    omega
  | succ c ih =>
    intro j0 r j hj
    cases j with
    | zero =>
      refine ⟨(mk_moon j0 r).1, rfl, ?_⟩
      simp [mk_moon]
    | succ j =>
      obtain ⟨moon, hm, hr⟩ := ih (j0 + 1) (mk_moon j0 r).2 j (by omega)
      refine ⟨moon, hm, ?_⟩
      rw [show j0 + (j + 1) = j0 + 1 + j from by omega]
      exact hr

/-- The planet spawned at index i0 + i of the planet loop has orbit radius
0.15 + (i0 + i)/6, and its moon at index j has orbit radius 0.05 + j/35. -/
lemma mk_planets_radius (count : ℕ) :
    ∀ (i0 : ℕ) (r : RngState) (i : ℕ), i < count →
      ∃ q, (mk_planets i0 count r).1.get? i = some q ∧
        q.1.orbit_radius = 0.15 + ((i0 + i : ℕ) : ℝ) / 6 ∧
        ∀ (j : ℕ), j < q.2.length →
          ∃ moon, q.2.get? j = some moon ∧ moon.orbit_radius = 0.05 + (j : ℝ) / 35 := by
  induction count with
  | zero =>
    intro i0 r i hi
    omega
  | succ c ih =>
    intro i0 r i hi
    cases i with
    | zero =>
      refine ⟨(mk_planet i0 r).1, rfl, by simp [mk_planet], ?_⟩
      intro j hj
      have hj' : j < (gen_range_nat 1 4 (gen_range_real 0.005 0.01 r).2).1 := by
        have h := hj
        simpa [mk_planet, mk_moons_length] using h
      obtain ⟨moon, hm, hr⟩ :=
        mk_moons_radius (gen_range_nat 1 4 (gen_range_real 0.005 0.01 r).2).1 0
          (gen_range_nat 1 4 (gen_range_real 0.005 0.01 r).2).2 j hj'
      exact ⟨moon, hm, by simpa using hr⟩
    | succ i =>
      obtain ⟨q, hq, h1, h2⟩ := ih (i0 + 1) (mk_planet i0 r).2 i (by omega)
      refine ⟨q, hq, ?_, h2⟩
      rw [show i0 + (i + 1) = i0 + 1 + i from by omega]
      exact h1

/-- Claim C5: the planet at index i has orbit radius 0.15 + i/6, and each of
its moons at index j has orbit radius 0.05 + j/35. -/
theorem c5_orbit_radii (n : ℤ) (r : RngState) (i : ℕ)
    (hi : i < (planets_of (setup n r)).length) :
    ∃ q, (planets_of (setup n r)).get? i = some q ∧
      q.1.orbit_radius = 0.15 + (i : ℝ) / 6 ∧
      ∀ (j : ℕ), j < q.2.length →
        ∃ moon, q.2.get? j = some moon ∧ moon.orbit_radius = 0.05 + (j : ℝ) / 35 := by
  rw [planets_of_setup] at hi ⊢
  rw [mk_planets_length] at hi
  obtain ⟨q, hq, h1, h2⟩ := mk_planets_radius n.toNat 0 r i hi
  exact ⟨q, hq, by simpa using h1, h2⟩

/-- Witness for C5 on a one-planet scene. -/
theorem c5_witness :
    0 < (planets_of (setup 1 r0)).length ∧
    (∃ q, (planets_of (setup 1 r0)).get? 0 = some q ∧
      q.1.orbit_radius = 0.15 + ((0 : ℕ) : ℝ) / 6 ∧
      ∀ (j : ℕ), j < q.2.length →
        ∃ moon, q.2.get? j = some moon ∧ moon.orbit_radius = 0.05 + (j : ℝ) / 35) :=
  ⟨by rw [planets_of_setup, mk_planets_length]; norm_num,
   c5_orbit_radii 1 r0 0 (by rw [planets_of_setup, mk_planets_length]; norm_num)⟩

/-- Parsing the character of a decimal digit recovers the digit. -/
lemma digit_val_digit_char (d : ℕ) (h : d < 10) : digit_val (digit_char d) = some d := by
  interval_cases d <;> decide

/-- The digit scan distributes over append. -/
lemma parse_digits_go_append (l1 : List Char) :
    ∀ (acc : ℕ) (l2 : List Char),
      parse_digits_go acc (l1 ++ l2) =
        (parse_digits_go acc l1).bind fun a => parse_digits_go a l2 := by
  induction l1 with
  | nil =>
    intro acc l2
    rfl
  | cons c cs ih =>
    intro acc l2
    simp only [List.cons_append, parse_digits_go]
    cases hd : digit_val c with
    | none => rfl
    | some d => exact ih _ _

/-- Scanning the decimal digits of m (most significant first) recovers m. -/
lemma parse_digits_go_decimal (m : ℕ) :
    ∀ acc, parse_digits_go acc ((Nat.digits 10 m).reverse.map digit_char) =
      some (acc * 10 ^ (Nat.digits 10 m).length + m) := by
  induction m using Nat.strong_induction_on with
  | _ m ih =>
    intro acc
    rcases Nat.eq_zero_or_pos m with rfl | hm
    · rw [Nat.digits_zero]
      simp [parse_digits_go]
    · rw [Nat.digits_def' (by norm_num : 1 < 10) hm]
      simp only [List.reverse_cons, List.map_append, List.map_cons, List.map_nil]
      rw [parse_digits_go_append,
        ih (m / 10) (Nat.div_lt_self hm (by norm_num))]
      simp only [Option.some_bind]
      rw [parse_digits_go, digit_val_digit_char (m % 10) (Nat.mod_lt m (by norm_num))]
      simp only [parse_digits_go, List.length_cons, Option.some.injEq]
      have hdm : m = 10 * (m / 10) + m % 10 := (Nat.div_add_mod m 10).symm
      calc 10 * (acc * 10 ^ (Nat.digits 10 (m / 10)).length + m / 10) + m % 10
          = acc * 10 ^ ((Nat.digits 10 (m / 10)).length + 1) +
              (10 * (m / 10) + m % 10) := by rw [pow_succ]; ring
        _ = acc * 10 ^ ((Nat.digits 10 (m / 10)).length + 1) + m := by rw [← hdm]

/-- Parsing the canonical decimal representation of m recovers m. -/
lemma parse_digits_decimal (m : ℕ) : parse_digits (nat_decimal m) = some m := by
  rcases Nat.eq_zero_or_pos m with rfl | hm
  · decide
  · rw [nat_decimal, if_neg hm.ne']
    have hne : (Nat.digits 10 m).reverse.map digit_char ≠ [] := by
      simp [Nat.digits_ne_nil_iff_ne_zero.mpr hm.ne']
    cases hl : (Nat.digits 10 m).reverse.map digit_char with
    | nil => exact absurd hl hne
    | cons c cs =>
      have : parse_digits (c :: cs) = parse_digits_go 0 (c :: cs) := rfl
      rw [this, ← hl, parse_digits_go_decimal]
      simp

/-- Decimal digit characters are not whitespace. -/
lemma digit_char_not_ws (d : ℕ) (h : d < 10) : (digit_char d).isWhitespace = false := by
  interval_cases d <;> decide

/-- No character of a canonical decimal representation is whitespace. -/
lemma nat_decimal_not_ws (m : ℕ) : ∀ c ∈ nat_decimal m, c.isWhitespace = false := by
  intro c hc
  rw [nat_decimal] at hc
  by_cases hm : m = 0
  · rw [if_pos hm] at hc
    simp at hc
    subst hc
    decide
  · rw [if_neg hm] at hc
    simp only [List.mem_map, List.mem_reverse] at hc
    obtain ⟨d, hd, rfl⟩ := hc
    exact digit_char_not_ws d (Nat.digits_lt_base (by norm_num) hd)

/-- dropWhile is the identity on a list with no whitespace. -/
lemma dropWhile_ws_id (l : List Char) (h : ∀ c ∈ l, c.isWhitespace = false) :
    l.dropWhile Char.isWhitespace = l := by
  cases l with
  | nil => rfl
  | cons c cs =>
    rw [List.dropWhile_cons, h c (List.mem_cons_self c cs)]
    simp

/-- Trimming a list with no whitespace is the identity. -/
lemma trim_chars_of_not_ws (l : List Char) (h : ∀ c ∈ l, c.isWhitespace = false) :
    trim_chars l = l := by
  rw [trim_chars, dropWhile_ws_id l h,
    dropWhile_ws_id l.reverse fun c hc => h c (List.mem_reverse.mp hc),
    List.reverse_reverse]

/-- Trimming and parsing the decimal representation of a negative i32 value
recovers it. -/
lemma parse_arg_int_decimal_neg (n : ℤ) (h1 : -(2 ^ 31) ≤ n) (h2 : n < 0) :
    parse_arg (int_decimal n) = some n := by
  have hmem : ∀ c ∈ int_decimal n, c.isWhitespace = false := by
    intro c hc
    rw [int_decimal, if_pos h2] at hc
    rcases List.mem_cons.mp hc with rfl | hc'
    · decide
    · exact nat_decimal_not_ws _ c hc'
  rw [parse_arg, trim_chars_of_not_ws _ hmem, int_decimal, if_pos h2]
  simp only [parse_i32, if_pos (rfl : ('-' : Char) = '-')]
  rw [parse_digits_decimal]
  simp only [Option.some_bind]
  rw [if_pos (show ((n.natAbs : ℤ)) ≤ 2 ^ 31 by omega)]
  rw [show -(n.natAbs : ℤ) = n from by omega]
  simp

/-- Claim C2: a missing or unparsable planet-count argument is fatal at
startup with a descriptive (nonempty) message, and a successful startup
carries exactly the parsed value (no default). -/
theorem c2_arg_parse_fatal (args : List (List Char)) :
    (args.get? 1 = none → parse_planets args = Except.error "index out of bounds") ∧
    (∀ a, args.get? 1 = some a → parse_arg a = none →
        parse_planets args = Except.error "please give me correct string number!") ∧
    (∀ a n, args.get? 1 = some a → parse_arg a = some n → parse_planets args = Except.ok n) ∧
    "index out of bounds" ≠ "" ∧
    "please give me correct string number!" ≠ "" := by
  refine ⟨?_, ?_, ?_, by decide, by decide⟩
  · intro h
    rw [List.get?_eq_getElem?] at h
    simp [parse_planets, h]
  · intro a ha hp
    rw [List.get?_eq_getElem?] at ha
    simp [parse_planets, ha, hp]
  · intro a n ha hp
    rw [List.get?_eq_getElem?] at ha
    simp [parse_planets, ha, hp]

/-- Witness for C2: a missing argument, an unparsable argument, and a valid
argument. -/
theorem c2_witness :
    parse_planets [['p']] = Except.error "index out of bounds" ∧
    parse_planets [['p'], ['x']] = Except.error "please give me correct string number!" ∧
    parse_planets [['p'], ['4', '2']] = Except.ok 42 :=
  ⟨(c2_arg_parse_fatal [['p']]).1 rfl,
   (c2_arg_parse_fatal [['p'], ['x']]).2.1 ['x'] rfl (by decide),
   (c2_arg_parse_fatal [['p'], ['4', '2']]).2.2.1 ['4', '2'] 42 rfl (by decide)⟩

/-- Claim C10: a negative planet-count argument parses successfully as an i32
and setup then spawns zero planet bodies while still spawning one sun and one
camera. -/
theorem c10_negative_count (a0 : List Char) (n : ℤ) (h1 : -(2 ^ 31) ≤ n) (h2 : n < 0)
    (r : RngState) :
    parse_planets [a0, int_decimal n] = Except.ok n ∧
    (setup n r).countP is_planet = 0 ∧
    (setup n r).countP is_sun = 1 ∧
    (setup n r).countP is_camera = 1 := by
  have hzero : n.toNat = 0 := Int.toNat_of_nonpos h2.le
  refine ⟨?_, ?_, ?_, ?_⟩
  · have := parse_arg_int_decimal_neg n h1 h2
    simp [parse_planets, this]
  · simp [setup, hzero, mk_planets, is_planet]
  · simp [setup, hzero, mk_planets, is_sun]
  · simp [setup, hzero, mk_planets, is_camera]

/-- Witness for C10 at n = -3. -/
theorem c10_witness :
    parse_planets [['p'], int_decimal (-3)] = Except.ok (-3) ∧
    (setup (-3) r0).countP is_planet = 0 ∧
    (setup (-3) r0).countP is_sun = 1 ∧
    (setup (-3) r0).countP is_camera = 1 :=
  c10_negative_count ['p'] (-3) (by norm_num) (by norm_num) r0

end BevyPlanets
